import Mathlib

/-!
Shallow embedding of the per-turn conversation core of the Dispatch-AI
call-handling service: the data model (`app/models/call.py`), the derived
collection state (`get_collection_state` in `app/api/call.py`), the three
step collectors and the closing-message generator
(`app/services/simple_info_collector.py`), and the turn orchestrator
(`ai_conversation` in `app/api/call.py`).

External capabilities (the LLM classifier, the LLM extraction calls, the
backend HTTP call) are modelled as oracle inputs to the turn: each is an
`Except String _` value, where `.error e` stands for the Python call raising
an exception with message `e`.
-/

namespace DispatchAI

/-- `UserInfo` from `app/models/call.py`: all three fields optional. -/
structure UserInfo where
  name : Option String
  phone : Option String
  address : Option String
  deriving DecidableEq, Repr

/-- `UserState` from `app/models/call.py`. -/
structure UserState where
  userInfo : UserInfo
  deriving DecidableEq, Repr

/-- `Company` from `app/models/call.py`. -/
structure Company where
  id : String
  name : String
  email : String
  userId : String
  deriving DecidableEq, Repr

/-- `Message` from `app/models/call.py`: speaker is "AI" or "customer". -/
structure Message where
  speaker : String
  message : String
  startedAt : String
  deriving DecidableEq, Repr

/-- `CallSkeleton` from `app/models/call.py` (the fields the conversation
core reads and writes; `createdAt` is never consulted and is omitted). -/
structure CallSkeleton where
  callSid : String
  company : Company
  user : UserState
  history : List Message
  callerNumber : Option String
  callStartAt : Option String
  intent : Option String
  intentClassified : Bool
  deriving DecidableEq, Repr

/-- Python truthiness of an optional string: `None` and `""` are falsy.
`pyStr o` is `some s` exactly when `o` holds a non-empty string. -/
def pyStr : Option String → Option String
  | none => none
  | some s => if s = "" then none else some s

/-- The derived per-turn collection state built by `get_collection_state`
in `app/api/call.py`. -/
structure CollectionState where
  current_step : String
  collected_name : Option String
  collected_background : Option String
  collected_additional : Option String
  name_retry_count : Nat
  background_retry_count : Nat
  additional_retry_count : Nat
  calllog_created : Bool
  deriving DecidableEq, Repr

/-- `get_collection_state` from `app/api/call.py`: reads the collected
fields out of `user.userInfo` (background is stashed in `address`,
additional info in `phone`), recomputes all retry counters as 0, uses
`intentClassified` as the calllog-created flag, and derives the current
step from which fields are (truthily) present. -/
def get_collection_state (callskeleton : CallSkeleton) : CollectionState :=
  let user_info := callskeleton.user.userInfo
  let collected_name := pyStr user_info.name
  let collected_background := pyStr user_info.address
  let collected_additional := pyStr user_info.phone
  let current_step :=
    if collected_name.isSome && collected_background.isSome && collected_additional.isSome then
      "completed"
    else if collected_name.isSome && collected_background.isSome then
      "additional_info"
    else if collected_name.isSome then
      "background"
    else
      "name"
  { current_step := current_step
    collected_name := collected_name
    collected_background := collected_background
    collected_additional := collected_additional
    name_retry_count := 0
    background_retry_count := 0
    additional_retry_count := 0
    calllog_created := callskeleton.intentClassified }

/-- Result of the intent classifier (`intent_classifier.classify_intent`):
`intent` is one of "scam" / "opportunity" / "other". -/
structure IntentResult where
  intent : String
  confidence : Rat
  reasoning : String
  deriving DecidableEq, Repr

/-- The fallback intent substituted by `ai_conversation` when the classifier
raises: intent "other", confidence 0, reasoning noting the failure
(`app/api/call.py`, the `except` arm of step 3). -/
def resolve_intent : Except String IntentResult → IntentResult
  | .ok r => r
  | .error e =>
    { intent := "other", confidence := 0, reasoning := "Classification failed: " ++ e }

/-- Parsed JSON reply of the name-extraction capability call in
`SimpleInfoCollector.collect_name`; each field is optional because the LLM
controls the JSON (`result.get`). -/
structure NameJson where
  name_extracted : Bool
  name : Option String
  response : Option String
  deriving DecidableEq, Repr

/-- Parsed JSON reply of the background-extraction capability call in
`SimpleInfoCollector.collect_background`. -/
structure BackgroundJson where
  background_extracted : Bool
  background : Option String
  response : Option String
  deriving DecidableEq, Repr

/-- Parsed JSON reply of the additional-info extraction capability call in
`SimpleInfoCollector.collect_additional_info`. -/
structure AdditionalJson where
  additional_info_extracted : Bool
  additional_info : Option String
  response : Option String
  deriving DecidableEq, Repr

/-- The dictionary each collector returns: `value` is the extracted field
(`name` / `background` / `additional_info` in the Python dicts). -/
structure CollectResult where
  response : String
  extracted : Bool
  value : Option String
  should_retry : Bool
  step_complete : Bool
  deriving DecidableEq, Repr

/-- Fixed fallback question of the name step
(`SimpleInfoCollector.collect_name`). -/
def name_fallback_question : String := "May I have your name, please?"

/-- `SimpleInfoCollector.collect_name`: the capability call (and its JSON
parse) is the oracle `outcome`; on exception the fixed fallback question is
returned with `step_complete = false`. -/
def collect_name (outcome : Except String NameJson)
    (retry_count max_retries_per_step : Nat) : CollectResult :=
  match outcome with
  | .ok result =>
    let name_extracted := result.name_extracted
    { response := result.response.getD name_fallback_question
      extracted := name_extracted
      value := if name_extracted then result.name else none
      should_retry := !name_extracted && decide (retry_count < max_retries_per_step)
      step_complete := name_extracted }
  | .error _ =>
    { response := name_fallback_question
      extracted := false
      value := none
      should_retry := decide (retry_count < max_retries_per_step)
      step_complete := false }

/-- Fixed fallback question of the background step
(`SimpleInfoCollector.collect_background`). -/
def background_fallback_question : String := "Thank you. What brings you to call us today?"

/-- `SimpleInfoCollector.collect_background`. -/
def collect_background (outcome : Except String BackgroundJson)
    (retry_count max_retries_per_step : Nat) : CollectResult :=
  match outcome with
  | .ok result =>
    let background_extracted := result.background_extracted
    { response := result.response.getD background_fallback_question
      extracted := background_extracted
      value := if background_extracted then result.background else none
      should_retry := !background_extracted && decide (retry_count < max_retries_per_step)
      step_complete := background_extracted }
  | .error _ =>
    { response := background_fallback_question
      extracted := false
      value := none
      should_retry := decide (retry_count < max_retries_per_step)
      step_complete := false }

/-- Fixed fallback question of the additional-info step
(`SimpleInfoCollector.collect_additional_info`). -/
def additional_fallback_question : String :=
  "Is there anything else you\x27d like to share? What\x27s the best way to contact you?"

/-- `SimpleInfoCollector.collect_additional_info`. -/
def collect_additional_info (outcome : Except String AdditionalJson)
    (retry_count max_retries_per_step : Nat) : CollectResult :=
  match outcome with
  | .ok result =>
    let info_extracted := result.additional_info_extracted
    { response := result.response.getD additional_fallback_question
      extracted := info_extracted
      value := if info_extracted then result.additional_info else none
      should_retry := !info_extracted && decide (retry_count < max_retries_per_step)
      step_complete := info_extracted }
  | .error _ =>
    { response := additional_fallback_question
      extracted := false
      value := none
      should_retry := decide (retry_count < max_retries_per_step)
      step_complete := false }

/-- `SimpleInfoCollector.generate_closing_message`: pure function of the
caller name and the intent type, three templates. -/
def generate_closing_message (caller_name : Option String)
    (intent_type : Option String) : String :=
  let name_str := (pyStr caller_name).getD ""
  let name_part := if name_str = "" then "" else ", " ++ name_str
  if intent_type = some "opportunity" then
    "Thank you so much for reaching out" ++ name_part ++ ". " ++
    "I\x27ve recorded all your information and our team will contact you shortly to discuss this opportunity further. " ++
    "We appreciate your interest. Have a great day!"
  else if intent_type = some "other" then
    "Thank you for calling" ++ name_part ++ ". " ++
    "I\x27ve recorded your inquiry and our team will review it carefully. " ++
    "Someone from our office will get back to you as soon as possible. " ++
    "Have a good day!"
  else
    "Thank you for your call" ++ name_part ++ ". " ++
    "I\x27ve noted your information and our team will follow up with you shortly. " ++
    "Have a great day!"

/-- Modelled from the spec: the record-store operation `setIntent`
(`redis_service.update_intent_classification`, whose body is not under
`src/`). It persists the classification on the call record; the only
fields of `CallSkeleton` (in `app/models/call.py`, which is under `src/`)
that can receive it are `intent` and `intentClassified`, the latter
declared there as the flag for whether intent has been classified, so the
operation writes `intent` and sets `intentClassified` to true. The
confidence, reasoning and timestamp arguments of `setIntent` have no home
on `CallSkeleton` and do not affect the state the core later reads. -/
def update_intent_classification (callskeleton : CallSkeleton)
    (intent : String) : CallSkeleton :=
  { callskeleton with intent := some intent, intentClassified := true }

/-- Modelled from the spec: the record-store operation `setField`
(`redis_service.update_user_info_field`, whose body is not under `src/`):
writes the given value into the named `user.userInfo` field. -/
def update_user_info_field (callskeleton : CallSkeleton)
    (field_name field_value : String) : CallSkeleton :=
  let ui := callskeleton.user.userInfo
  if field_name = "name" then
    { callskeleton with user := { userInfo := { ui with name := some field_value } } }
  else if field_name = "address" then
    { callskeleton with user := { userInfo := { ui with address := some field_value } } }
  else if field_name = "phone" then
    { callskeleton with user := { userInfo := { ui with phone := some field_value } } }
  else
    callskeleton

/-- `create_calllog` from `app/api/call.py`: the backend HTTP POST is the
oracle (`.ok code` = the response status code, `.error` = the client
raised); returns true on a 201, false otherwise, and catches every
exception, returning false. -/
def create_calllog (httpOutcome : Except String Nat) : Bool :=
  match httpOutcome with
  | .ok status_code => status_code == 201
  | .error _ => false

/-- The per-turn oracle environment: outcomes of the external capability
calls `ai_conversation` may make this turn, plus the configured
`settings.max_retries_per_step` and the wall-clock timestamp. -/
structure TurnEnv where
  classify : Except String IntentResult
  nameOutcome : Except String NameJson
  backgroundOutcome : Except String BackgroundJson
  additionalOutcome : Except String AdditionalJson
  calllogHttp : Except String Nat
  max_retries_per_step : Nat
  now : String
  deriving Repr

/-- The `aiResponse` object built by `ai_conversation`. -/
structure AiResponse where
  speaker : String
  message : String
  startedAt : String
  deriving DecidableEq, Repr

/-- The JSON body returned by `ai_conversation`: `shouldHangup = none`
models the key being absent from the response dict. -/
structure ResponseData where
  aiResponse : AiResponse
  shouldHangup : Option Bool
  deriving DecidableEq, Repr

/-- Observable outcome of one turn: the HTTP response body, the call
record as left in the store, and a trace of the side calls made (whether
`update_intent_classification` ran and what `intent` the record held at
that moment, whether `create_calllog` ran and what it returned, which
collector ran and the `retry_count` passed to it). -/
structure TurnOutput where
  response : ResponseData
  skeleton : CallSkeleton
  setIntentPre : Option (Option String)
  calllogAttempted : Bool
  calllogResult : Option Bool
  invokedCollector : Option String
  retryPassed : Option Nat
  deriving DecidableEq, Repr

/-- The HTTPException statuses `ai_conversation` can raise while loading
the call skeleton. -/
inductive HttpError where
  | unprocessable
  | badRequest
  | internal
  deriving DecidableEq, Repr

/-- Outcome of `get_call_skeleton` + `CallSkeleton.model_validate`:
`valueError` maps to 422, `validationError` to 400, `otherError` to 500. -/
inductive SkeletonLookup where
  | found (callskeleton : CallSkeleton)
  | valueError
  | validationError
  | otherError (msg : String)
  deriving DecidableEq, Repr

/-- The fixed apology/goodbye message of the scam branch in
`ai_conversation`. -/
def scam_goodbye_message : String :=
  "Thank you for calling. I\x27m sorry, but I\x27m unable to assist with this matter. " ++
  "If you have a legitimate inquiry, please contact us through our official channels. " ++
  "Have a good day. Goodbye."

/-- `ai_conversation` from `app/api/call.py`: load the skeleton, classify
intent every turn (substituting "other" on failure), hang up immediately on
scam, otherwise create the calllog when the flag is unset and dispatch on
the derived `current_step`; the `shouldHangup` key is added to the response
only when true. -/
def ai_conversation (lookup : SkeletonLookup) (env : TurnEnv)
    (_customerMessage : String) : Except HttpError TurnOutput :=
  match lookup with
  | .valueError => .error .unprocessable
  | .validationError => .error .badRequest
  | .otherError _ => .error .internal
  | .found callskeleton =>
    let intent_result := resolve_intent env.classify
    let current_intent := intent_result.intent
    if current_intent = "scam" then
      .ok { response :=
              { aiResponse :=
                  { speaker := "AI", message := scam_goodbye_message, startedAt := env.now }
                shouldHangup := some true }
            skeleton := update_intent_classification callskeleton "scam"
            setIntentPre := some callskeleton.intent
            calllogAttempted := false
            calllogResult := none
            invokedCollector := none
            retryPassed := none }
    else
      let collection_state := get_collection_state callskeleton
      let current_step := collection_state.current_step
      let calllog_created := collection_state.calllog_created
      let skeleton1 :=
        if calllog_created then callskeleton
        else update_intent_classification callskeleton current_intent
      let setIntentPre :=
        if calllog_created then none else some callskeleton.intent
      let calllogResult :=
        if calllog_created then none else some (create_calllog env.calllogHttp)
      if current_step = "completed" then
        .ok { response :=
                { aiResponse :=
                    { speaker := "AI"
                      message := generate_closing_message collection_state.collected_name
                        (some current_intent)
                      startedAt := env.now }
                  shouldHangup := some true }
              skeleton := skeleton1
              setIntentPre := setIntentPre
              calllogAttempted := !calllog_created
              calllogResult := calllogResult
              invokedCollector := none
              retryPassed := none }
      else if current_step = "name" then
        let result := collect_name env.nameOutcome collection_state.name_retry_count
          env.max_retries_per_step
        let skeleton2 :=
          match result.value with
          | some v =>
            if result.step_complete && v != "" then
              update_user_info_field skeleton1 "name" v
            else skeleton1
          | none => skeleton1
        .ok { response :=
                { aiResponse := { speaker := "AI", message := result.response, startedAt := env.now }
                  shouldHangup := none }
              skeleton := skeleton2
              setIntentPre := setIntentPre
              calllogAttempted := !calllog_created
              calllogResult := calllogResult
              invokedCollector := some "name"
              retryPassed := some collection_state.name_retry_count }
      else if current_step = "background" then
        let result := collect_background env.backgroundOutcome
          collection_state.background_retry_count env.max_retries_per_step
        let skeleton2 :=
          match result.value with
          | some v =>
            if result.step_complete && v != "" then
              update_user_info_field skeleton1 "address" v
            else skeleton1
          | none => skeleton1
        .ok { response :=
                { aiResponse := { speaker := "AI", message := result.response, startedAt := env.now }
                  shouldHangup := none }
              skeleton := skeleton2
              setIntentPre := setIntentPre
              calllogAttempted := !calllog_created
              calllogResult := calllogResult
              invokedCollector := some "background"
              retryPassed := some collection_state.background_retry_count }
      else if current_step = "additional_info" then
        let result := collect_additional_info env.additionalOutcome
          collection_state.additional_retry_count env.max_retries_per_step
        let complete :=
          match result.value with
          | some v => result.step_complete && v != ""
          | none => false
        if complete then
          .ok { response :=
                  { aiResponse :=
                      { speaker := "AI"
                        message := generate_closing_message collection_state.collected_name
                          (some current_intent)
                        startedAt := env.now }
                    shouldHangup := some true }
                skeleton := update_user_info_field skeleton1 "phone" (result.value.getD "")
                setIntentPre := setIntentPre
                calllogAttempted := !calllog_created
                calllogResult := calllogResult
                invokedCollector := some "additional_info"
                retryPassed := some collection_state.additional_retry_count }
        else
          .ok { response :=
                  { aiResponse := { speaker := "AI", message := result.response, startedAt := env.now }
                    shouldHangup := none }
                skeleton := skeleton1
                setIntentPre := setIntentPre
                calllogAttempted := !calllog_created
                calllogResult := calllogResult
                invokedCollector := some "additional_info"
                retryPassed := some collection_state.additional_retry_count }
      else
        .ok { response :=
                { aiResponse := { speaker := "AI", message := "", startedAt := env.now }
                  shouldHangup := none }
              skeleton := skeleton1
              setIntentPre := setIntentPre
              calllogAttempted := !calllog_created
              calllogResult := calllogResult
              invokedCollector := none
              retryPassed := none }

/-- Projection: the successful turn output, `none` when the endpoint
raised an HTTPException. -/
def turnOk : Except HttpError TurnOutput → Option TurnOutput
  | .ok o => some o
  | .error _ => none

/-! Concrete fixtures used by witnesses and counterexamples. -/

/-- A sample company record. -/
def sampleCompany : Company :=
  { id := "comp-1", name := "Acme Corp", email := "ops@acme.example", userId := "user-1" }

/-- A fresh call: nothing collected, nothing classified. -/
def emptySkeleton : CallSkeleton :=
  { callSid := "CA100"
    company := sampleCompany
    user := { userInfo := { name := none, phone := none, address := none } }
    history := []
    callerNumber := some "+15550100"
    callStartAt := some "2026-01-01T00:00:00Z"
    intent := none
    intentClassified := false }

/-- A call with name and background collected and the calllog created,
waiting on the additional-info step. -/
def janeSkeleton : CallSkeleton :=
  { emptySkeleton with
    user := { userInfo :=
      { name := some "Jane"
        phone := none
        address := some "works at Acme Corp, wants a partnership" } }
    intent := some "opportunity"
    intentClassified := true }

/-- A call with all three fields collected. -/
def doneSkeleton : CallSkeleton :=
  { janeSkeleton with
    user := { userInfo :=
      { name := some "Jane"
        phone := some "jane@acme.example"
        address := some "works at Acme Corp, wants a partnership" } } }

/-- Baseline oracle environment: classifier says "other", every extraction
capability times out, the calllog POST returns 201. -/
def baseEnv : TurnEnv :=
  { classify := .ok { intent := "other", confidence := 2/5, reasoning := "routine inquiry" }
    nameOutcome := .error "request timed out"
    backgroundOutcome := .error "request timed out"
    additionalOutcome := .error "request timed out"
    calllogHttp := .ok 201
    max_retries_per_step := 3
    now := "2026-01-01T00:00:05Z" }

/-- Environment whose classifier flags a scam. -/
def scamEnv : TurnEnv :=
  { baseEnv with
    classify := .ok { intent := "scam", confidence := 9/10, reasoning := "caller asks for gift cards" } }

/-- Environment whose classifier call raises. -/
def classifierDownEnv : TurnEnv :=
  { baseEnv with classify := .error "classifier timeout" }

/-- Environment whose calllog POST raises. -/
def failedCalllogEnv : TurnEnv :=
  { baseEnv with calllogHttp := .error "backend unreachable" }

/-- Environment whose additional-info extraction succeeds with a real
value. -/
def goodAdditionalEnv : TurnEnv :=
  { baseEnv with
    classify := .ok { intent := "opportunity", confidence := 4/5, reasoning := "partnership offer" }
    additionalOutcome := .ok
      { additional_info_extracted := true
        additional_info := some "jane@acme.example"
        response := some "Noted." } }

/-- Environment whose additional-info extraction reports success but
carries a null value. -/
def flaggedNullAdditionalEnv : TurnEnv :=
  { goodAdditionalEnv with
    additionalOutcome := .ok
      { additional_info_extracted := true
        additional_info := none
        response := some "Noted." } }

/-- The expected output of a first turn on `emptySkeleton` under
`baseEnv`: calllog created, name collector invoked and failing soft. -/
def firstTurnOut : TurnOutput :=
  { response :=
      { aiResponse :=
          { speaker := "AI", message := name_fallback_question, startedAt := "2026-01-01T00:00:05Z" }
        shouldHangup := none }
    skeleton := { emptySkeleton with intent := some "other", intentClassified := true }
    setIntentPre := some none
    calllogAttempted := true
    calllogResult := some true
    invokedCollector := some "name"
    retryPassed := some 0 }

/-- The expected output of a first turn on `emptySkeleton` under
`failedCalllogEnv`: like `firstTurnOut` but the calllog creation failed. -/
def failedCalllogOut : TurnOutput :=
  { firstTurnOut with calllogResult := some false }

/-- The expected output of a turn on the state left by `firstTurnOut`
under `baseEnv`: the calllog flag is already set, so no creation is
attempted and no intent is persisted. -/
def secondTurnOut : TurnOutput :=
  { response :=
      { aiResponse :=
          { speaker := "AI", message := name_fallback_question, startedAt := "2026-01-01T00:00:05Z" }
        shouldHangup := none }
    skeleton := { emptySkeleton with intent := some "other", intentClassified := true }
    setIntentPre := none
    calllogAttempted := false
    calllogResult := none
    invokedCollector := some "name"
    retryPassed := some 0 }

/-- The expected output of the closing turn on `janeSkeleton` under
`goodAdditionalEnv`: the additional-info field is persisted and the call
closes. -/
def janeClosedOut : TurnOutput :=
  { response :=
      { aiResponse :=
          { speaker := "AI"
            message := generate_closing_message (some "Jane") (some "opportunity")
            startedAt := "2026-01-01T00:00:05Z" }
        shouldHangup := some true }
    skeleton :=
      { janeSkeleton with
        user := { userInfo :=
          { name := some "Jane"
            phone := some "jane@acme.example"
            address := some "works at Acme Corp, wants a partnership" } } }
    setIntentPre := none
    calllogAttempted := false
    calllogResult := none
    invokedCollector := some "additional_info"
    retryPassed := some 0 }

/-- The expected output of a scam turn on `emptySkeleton`. -/
def scamEmptyOut : TurnOutput :=
  { response :=
      { aiResponse :=
          { speaker := "AI", message := scam_goodbye_message, startedAt := "2026-01-01T00:00:05Z" }
        shouldHangup := some true }
    skeleton := { emptySkeleton with intent := some "scam", intentClassified := true }
    setIntentPre := some none
    calllogAttempted := false
    calllogResult := none
    invokedCollector := none
    retryPassed := none }

end DispatchAI

namespace DispatchAI

/-! Helper lemmas about the embedded definitions. -/

theorem update_intent_classification_user (cs : CallSkeleton) (i : String) :
    (update_intent_classification cs i).user = cs.user := rfl

theorem update_intent_classification_flag (cs : CallSkeleton) (i : String) :
    (update_intent_classification cs i).intentClassified = true := rfl

theorem update_intent_classification_intent (cs : CallSkeleton) (i : String) :
    (update_intent_classification cs i).intent = some i := rfl

theorem update_user_info_field_phone (s : CallSkeleton) (x : String) :
    (update_user_info_field s "phone" x).user.userInfo.phone = some x ∧
    (update_user_info_field s "phone" x).user.userInfo.name = s.user.userInfo.name ∧
    (update_user_info_field s "phone" x).user.userInfo.address = s.user.userInfo.address := by
  unfold update_user_info_field
  rw [if_neg (by decide : ¬("phone" : String) = "name"),
    if_neg (by decide : ¬("phone" : String) = "address"),
    if_pos (rfl : ("phone" : String) = "phone")]
  exact ⟨rfl, rfl, rfl⟩

theorem update_user_info_field_intentClassified (s : CallSkeleton) (f x : String) :
    (update_user_info_field s f x).intentClassified = s.intentClassified := by
  unfold update_user_info_field
  repeat' split
  all_goals rfl

theorem update_user_info_field_intent (s : CallSkeleton) (f x : String) :
    (update_user_info_field s f x).intent = s.intent := by
  unfold update_user_info_field
  repeat' split
  all_goals rfl

theorem pyStr_some_isSome {v : String} (h : ¬v = "") : (pyStr (some v)).isSome = true := by
  simp [pyStr, h]

theorem calllog_created_eq (cs : CallSkeleton) :
    (get_collection_state cs).calllog_created = cs.intentClassified := rfl

theorem retry_counts_zero (cs : CallSkeleton) :
    (get_collection_state cs).name_retry_count = 0 ∧
    (get_collection_state cs).background_retry_count = 0 ∧
    (get_collection_state cs).additional_retry_count = 0 :=
  ⟨rfl, rfl, rfl⟩

theorem current_step_eq_completed (cs : CallSkeleton) :
    (get_collection_state cs).current_step = "completed" ↔
      (pyStr cs.user.userInfo.name).isSome = true ∧
      (pyStr cs.user.userInfo.address).isSome = true ∧
      (pyStr cs.user.userInfo.phone).isSome = true := by
  unfold get_collection_state
  by_cases h1 : (pyStr cs.user.userInfo.name).isSome = true <;>
    by_cases h2 : (pyStr cs.user.userInfo.address).isSome = true <;>
      by_cases h3 : (pyStr cs.user.userInfo.phone).isSome = true <;>
        simp [h1, h2, h3]

theorem current_step_eq_additional (cs : CallSkeleton) :
    (get_collection_state cs).current_step = "additional_info" ↔
      (pyStr cs.user.userInfo.name).isSome = true ∧
      (pyStr cs.user.userInfo.address).isSome = true ∧
      (pyStr cs.user.userInfo.phone).isSome = false := by
  unfold get_collection_state
  by_cases h1 : (pyStr cs.user.userInfo.name).isSome = true <;>
    by_cases h2 : (pyStr cs.user.userInfo.address).isSome = true <;>
      by_cases h3 : (pyStr cs.user.userInfo.phone).isSome = true <;>
        simp [h1, h2, h3]

theorem current_step_mem (cs : CallSkeleton) :
    (get_collection_state cs).current_step = "name" ∨
    (get_collection_state cs).current_step = "background" ∨
    (get_collection_state cs).current_step = "additional_info" ∨
    (get_collection_state cs).current_step = "completed" := by
  unfold get_collection_state
  by_cases h1 : (pyStr cs.user.userInfo.name).isSome = true <;>
    by_cases h2 : (pyStr cs.user.userInfo.address).isSome = true <;>
      by_cases h3 : (pyStr cs.user.userInfo.phone).isSome = true <;>
        simp [h1, h2, h3]

theorem collected_name_eq (cs : CallSkeleton) :
    (get_collection_state cs).collected_name = pyStr cs.user.userInfo.name := rfl

theorem turn_eq_scam (cs : CallSkeleton) (env : TurnEnv) (m : String)
    (h : (resolve_intent env.classify).intent = "scam") :
    ai_conversation (.found cs) env m = .ok
      { response :=
          { aiResponse :=
              { speaker := "AI", message := scam_goodbye_message, startedAt := env.now }
            shouldHangup := some true }
        skeleton := update_intent_classification cs "scam"
        setIntentPre := some cs.intent
        calllogAttempted := false
        calllogResult := none
        invokedCollector := none
        retryPassed := none } := by
  simp only [ai_conversation, h, if_pos]

theorem turn_eq_completed (cs : CallSkeleton) (env : TurnEnv) (m : String)
    (hns : ¬(resolve_intent env.classify).intent = "scam")
    (hstep : (get_collection_state cs).current_step = "completed") :
    ai_conversation (.found cs) env m = .ok
      { response :=
          { aiResponse :=
              { speaker := "AI"
                message := generate_closing_message (get_collection_state cs).collected_name
                  (some (resolve_intent env.classify).intent)
                startedAt := env.now }
            shouldHangup := some true }
        skeleton :=
          if (get_collection_state cs).calllog_created then cs
          else update_intent_classification cs (resolve_intent env.classify).intent
        setIntentPre :=
          if (get_collection_state cs).calllog_created then none else some cs.intent
        calllogAttempted := !(get_collection_state cs).calllog_created
        calllogResult :=
          if (get_collection_state cs).calllog_created then none
          else some (create_calllog env.calllogHttp)
        invokedCollector := none
        retryPassed := none } := by
  simp only [ai_conversation, hstep, if_neg hns]
  simp

theorem skeleton1_intentClassified (cs : CallSkeleton) (i : String) :
    (if (get_collection_state cs).calllog_created then cs
      else update_intent_classification cs i).intentClassified = true := by
  by_cases h : (get_collection_state cs).calllog_created = true
  · rw [if_pos h]
    exact (calllog_created_eq cs) ▸ h
  · rw [if_neg h]
    rfl

theorem skeleton1_user (cs : CallSkeleton) (i : String) :
    (if (get_collection_state cs).calllog_created then cs
      else update_intent_classification cs i).user = cs.user := by
  by_cases h : (get_collection_state cs).calllog_created = true
  · rw [if_pos h]
  · rw [if_neg h]
    rfl

theorem turn_eq_name (cs : CallSkeleton) (env : TurnEnv) (m : String)
    (hns : ¬(resolve_intent env.classify).intent = "scam")
    (hstep : (get_collection_state cs).current_step = "name") :
    ∃ o, ai_conversation (.found cs) env m = .ok o ∧
      o.response.shouldHangup = none ∧
      o.response.aiResponse.speaker = "AI" ∧
      o.response.aiResponse.message =
        (collect_name env.nameOutcome (get_collection_state cs).name_retry_count
          env.max_retries_per_step).response ∧
      o.retryPassed = some (get_collection_state cs).name_retry_count ∧
      o.calllogAttempted = !(get_collection_state cs).calllog_created ∧
      o.setIntentPre =
        (if (get_collection_state cs).calllog_created then none else some cs.intent) ∧
      o.skeleton.intentClassified = true ∧
      o.invokedCollector = some "name" := by
  simp only [ai_conversation, if_neg hns]
  rw [hstep]
  rw [if_neg (show ¬("name" : String) = "completed" by decide)]
  rw [if_pos (show ("name" : String) = "name" from rfl)]
  refine ⟨_, rfl, rfl, rfl, rfl, rfl, rfl, rfl, ?_, rfl⟩
  cases hv : (collect_name env.nameOutcome (get_collection_state cs).name_retry_count
      env.max_retries_per_step).value with
  | none => simp only [hv, skeleton1_intentClassified]
  | some v =>
    simp only [hv]
    split
    · rw [update_user_info_field_intentClassified, skeleton1_intentClassified]
    · rw [skeleton1_intentClassified]

theorem turn_eq_background (cs : CallSkeleton) (env : TurnEnv) (m : String)
    (hns : ¬(resolve_intent env.classify).intent = "scam")
    (hstep : (get_collection_state cs).current_step = "background") :
    ∃ o, ai_conversation (.found cs) env m = .ok o ∧
      o.response.shouldHangup = none ∧
      o.response.aiResponse.speaker = "AI" ∧
      o.response.aiResponse.message =
        (collect_background env.backgroundOutcome
          (get_collection_state cs).background_retry_count env.max_retries_per_step).response ∧
      o.retryPassed = some (get_collection_state cs).background_retry_count ∧
      o.calllogAttempted = !(get_collection_state cs).calllog_created ∧
      o.setIntentPre =
        (if (get_collection_state cs).calllog_created then none else some cs.intent) ∧
      o.skeleton.intentClassified = true ∧
      o.invokedCollector = some "background" := by
  simp only [ai_conversation, if_neg hns]
  rw [hstep]
  rw [if_neg (show ¬("background" : String) = "completed" by decide)]
  rw [if_neg (show ¬("background" : String) = "name" by decide)]
  rw [if_pos (show ("background" : String) = "background" from rfl)]
  refine ⟨_, rfl, rfl, rfl, rfl, rfl, rfl, rfl, ?_, rfl⟩
  cases hv : (collect_background env.backgroundOutcome
      (get_collection_state cs).background_retry_count env.max_retries_per_step).value with
  | none => simp only [hv, skeleton1_intentClassified]
  | some v =>
    simp only [hv]
    split
    · rw [update_user_info_field_intentClassified, skeleton1_intentClassified]
    · rw [skeleton1_intentClassified]

theorem turn_eq_additional_complete (cs : CallSkeleton) (env : TurnEnv) (m : String)
    (v : String)
    (hns : ¬(resolve_intent env.classify).intent = "scam")
    (hstep : (get_collection_state cs).current_step = "additional_info")
    (hsc : (collect_additional_info env.additionalOutcome
      (get_collection_state cs).additional_retry_count
      env.max_retries_per_step).step_complete = true)
    (hv : (collect_additional_info env.additionalOutcome
      (get_collection_state cs).additional_retry_count
      env.max_retries_per_step).value = some v)
    (hne : ¬v = "") :
    ai_conversation (.found cs) env m = .ok
      { response :=
          { aiResponse :=
              { speaker := "AI"
                message := generate_closing_message (get_collection_state cs).collected_name
                  (some (resolve_intent env.classify).intent)
                startedAt := env.now }
            shouldHangup := some true }
        skeleton := update_user_info_field
          (if (get_collection_state cs).calllog_created then cs
            else update_intent_classification cs (resolve_intent env.classify).intent)
          "phone" v
        setIntentPre :=
          if (get_collection_state cs).calllog_created then none else some cs.intent
        calllogAttempted := !(get_collection_state cs).calllog_created
        calllogResult :=
          if (get_collection_state cs).calllog_created then none
          else some (create_calllog env.calllogHttp)
        invokedCollector := some "additional_info"
        retryPassed := some (get_collection_state cs).additional_retry_count } := by
  simp only [ai_conversation, if_neg hns]
  rw [hstep]
  rw [if_neg (show ¬("additional_info" : String) = "completed" by decide)]
  rw [if_neg (show ¬("additional_info" : String) = "name" by decide)]
  rw [if_neg (show ¬("additional_info" : String) = "background" by decide)]
  rw [if_pos (show ("additional_info" : String) = "additional_info" from rfl)]
  rw [hv]
  rw [if_pos (show ((collect_additional_info env.additionalOutcome
    (get_collection_state cs).additional_retry_count
    env.max_retries_per_step).step_complete && v != "") = true by
      rw [hsc]
      simpa using hne)]
  rfl

theorem turn_eq_additional_incomplete (cs : CallSkeleton) (env : TurnEnv) (m : String)
    (hns : ¬(resolve_intent env.classify).intent = "scam")
    (hstep : (get_collection_state cs).current_step = "additional_info")
    (hinc : (match (collect_additional_info env.additionalOutcome
        (get_collection_state cs).additional_retry_count
        env.max_retries_per_step).value with
      | some v => (collect_additional_info env.additionalOutcome
          (get_collection_state cs).additional_retry_count
          env.max_retries_per_step).step_complete && v != ""
      | none => false) = false) :
    ai_conversation (.found cs) env m = .ok
      { response :=
          { aiResponse :=
              { speaker := "AI"
                message := (collect_additional_info env.additionalOutcome
                  (get_collection_state cs).additional_retry_count
                  env.max_retries_per_step).response
                startedAt := env.now }
            shouldHangup := none }
        skeleton :=
          if (get_collection_state cs).calllog_created then cs
          else update_intent_classification cs (resolve_intent env.classify).intent
        setIntentPre :=
          if (get_collection_state cs).calllog_created then none else some cs.intent
        calllogAttempted := !(get_collection_state cs).calllog_created
        calllogResult :=
          if (get_collection_state cs).calllog_created then none
          else some (create_calllog env.calllogHttp)
        invokedCollector := some "additional_info"
        retryPassed := some (get_collection_state cs).additional_retry_count } := by
  simp only [ai_conversation, if_neg hns]
  rw [hstep]
  rw [if_neg (show ¬("additional_info" : String) = "completed" by decide)]
  rw [if_neg (show ¬("additional_info" : String) = "name" by decide)]
  rw [if_neg (show ¬("additional_info" : String) = "background" by decide)]
  rw [if_pos (show ("additional_info" : String) = "additional_info" from rfl)]
  rw [if_neg (by rw [hinc]; exact Bool.false_ne_true)]

theorem turn_found_isOk (cs : CallSkeleton) (env : TurnEnv) (m : String) :
    (turnOk (ai_conversation (.found cs) env m)).isSome = true := by
  simp only [ai_conversation]
  repeat' split
  all_goals rfl

theorem nonscam_trace_facts (cs : CallSkeleton) (env : TurnEnv) (o : TurnOutput)
    (hns : ¬(resolve_intent env.classify).intent = "scam")
    (hca : o.calllogAttempted = !(get_collection_state cs).calllog_created)
    (hsip : o.setIntentPre =
      if (get_collection_state cs).calllog_created then none else some cs.intent) :
    (o.setIntentPre = some cs.intent ∨ o.setIntentPre = none) ∧
    (o.setIntentPre ≠ none →
      (resolve_intent env.classify).intent = "scam" ∨ cs.intentClassified = false) ∧
    (o.calllogAttempted = true ↔
      cs.intentClassified = false ∧ ¬(resolve_intent env.classify).intent = "scam") := by
  cases hb : cs.intentClassified with
  | true =>
    rw [calllog_created_eq, hb] at hca hsip
    simp only [Bool.not_true, if_pos rfl] at hca hsip
    refine ⟨Or.inr hsip, fun hne => absurd hsip hne, ?_, ?_⟩
    · intro hAtt
      rw [hca] at hAtt
      exact Bool.noConfusion hAtt
    · rintro ⟨hfl, -⟩
      exact Bool.noConfusion hfl
  | false =>
    rw [calllog_created_eq, hb] at hca hsip
    simp only [Bool.not_false, if_neg (Bool.false_ne_true)] at hca hsip
    refine ⟨Or.inl hsip, fun _ => Or.inr rfl, ?_, ?_⟩
    · intro _
      exact ⟨rfl, hns⟩
    · intro _
      exact hca

theorem turn_found_shape (cs : CallSkeleton) (env : TurnEnv) (m : String) (o : TurnOutput)
    (hok : ai_conversation (.found cs) env m = .ok o) :
    o.response.aiResponse.speaker = "AI" ∧
    (o.response.shouldHangup = none ∨ o.response.shouldHangup = some true) ∧
    (o.retryPassed = none ∨ o.retryPassed = some 0) ∧
    o.skeleton.intentClassified = true ∧
    (o.setIntentPre = some cs.intent ∨ o.setIntentPre = none) ∧
    (o.setIntentPre ≠ none →
      (resolve_intent env.classify).intent = "scam" ∨ cs.intentClassified = false) ∧
    (o.calllogAttempted = true ↔
      cs.intentClassified = false ∧ ¬(resolve_intent env.classify).intent = "scam") := by
  by_cases hscam : (resolve_intent env.classify).intent = "scam"
  · rw [turn_eq_scam cs env m hscam] at hok
    injection hok with h
    subst h
    refine ⟨rfl, Or.inr rfl, Or.inl rfl, rfl, Or.inl rfl, fun _ => Or.inl hscam, ?_, ?_⟩
    · intro hAtt
      exact Bool.noConfusion hAtt
    · rintro ⟨-, hns⟩
      exact absurd hscam hns
  · rcases current_step_mem cs with h | h | h | h
    · obtain ⟨o', ho, hh, hsp, hmsg, hrp, hca, hsip, hflag, hic⟩ :=
        turn_eq_name cs env m hscam h
      rw [hok] at ho
      injection ho with he
      subst he
      obtain ⟨p1, p2, p3⟩ := nonscam_trace_facts cs env o hscam hca hsip
      exact ⟨hsp, Or.inl hh, Or.inr (hrp.trans rfl), hflag, p1, p2, p3⟩
    · obtain ⟨o', ho, hh, hsp, hmsg, hrp, hca, hsip, hflag, hic⟩ :=
        turn_eq_background cs env m hscam h
      rw [hok] at ho
      injection ho with he
      subst he
      obtain ⟨p1, p2, p3⟩ := nonscam_trace_facts cs env o hscam hca hsip
      exact ⟨hsp, Or.inl hh, Or.inr (hrp.trans rfl), hflag, p1, p2, p3⟩
    · cases hv : (collect_additional_info env.additionalOutcome
          (get_collection_state cs).additional_retry_count env.max_retries_per_step).value with
      | none =>
        have ho := turn_eq_additional_incomplete cs env m hscam h (by rw [hv])
        rw [hok] at ho
        injection ho with he
        obtain ⟨p1, p2, p3⟩ := nonscam_trace_facts cs env o hscam (by rw [he]; try rfl) (by rw [he]; try rfl)
        refine ⟨by rw [he], Or.inl (by rw [he]; try rfl), Or.inr (by rw [he]; try rfl), ?_, p1, p2, p3⟩
        rw [he]
        exact skeleton1_intentClassified cs _
      | some v =>
        by_cases hb : ((collect_additional_info env.additionalOutcome
            (get_collection_state cs).additional_retry_count
            env.max_retries_per_step).step_complete && v != "") = true
        · obtain ⟨hsc, hne'⟩ := Bool.and_eq_true_iff.mp hb
          have hne : ¬v = "" := by simpa using hne'
          have ho := turn_eq_additional_complete cs env m v hscam h hsc hv hne
          rw [hok] at ho
          injection ho with he
          obtain ⟨p1, p2, p3⟩ := nonscam_trace_facts cs env o hscam (by rw [he]; try rfl) (by rw [he]; try rfl)
          refine ⟨by rw [he], Or.inr (by rw [he]; try rfl), Or.inr (by rw [he]; try rfl), ?_, p1, p2, p3⟩
          rw [he, update_user_info_field_intentClassified]
          exact skeleton1_intentClassified cs _
        · have ho := turn_eq_additional_incomplete cs env m hscam h
            (by rw [hv]; simpa using hb)
          rw [hok] at ho
          injection ho with he
          obtain ⟨p1, p2, p3⟩ := nonscam_trace_facts cs env o hscam (by rw [he]; try rfl) (by rw [he]; try rfl)
          refine ⟨by rw [he], Or.inl (by rw [he]; try rfl), Or.inr (by rw [he]; try rfl), ?_, p1, p2, p3⟩
          rw [he]
          exact skeleton1_intentClassified cs _
    · have ho := turn_eq_completed cs env m hscam h
      rw [hok] at ho
      injection ho with he
      obtain ⟨p1, p2, p3⟩ := nonscam_trace_facts cs env o hscam (by rw [he]; try rfl) (by rw [he]; try rfl)
      refine ⟨by rw [he], Or.inr (by rw [he]; try rfl), Or.inl (by rw [he]; try rfl), ?_, p1, p2, p3⟩
      rw [he]
      exact skeleton1_intentClassified cs _

/-! Claim theorems. -/

/-- Claim C1: for every turn whose resolved intent is "scam", the handler
persists the scam classification on the record, returns the fixed
apology/goodbye message, and returns shouldHangup = true, regardless of
the current collection step and of which fields are already collected. -/
theorem scam_turn_hangs_up (cs : CallSkeleton) (env : TurnEnv) (m : String)
    (h : (resolve_intent env.classify).intent = "scam") :
    ai_conversation (.found cs) env m = .ok
      { response :=
          { aiResponse :=
              { speaker := "AI", message := scam_goodbye_message, startedAt := env.now }
            shouldHangup := some true }
        skeleton := update_intent_classification cs "scam"
        setIntentPre := some cs.intent
        calllogAttempted := false
        calllogResult := none
        invokedCollector := none
        retryPassed := none } :=
  turn_eq_scam cs env m h

/-- Witness for C1: a concrete scam turn on a call whose collection is
already in progress. -/
theorem scam_turn_hangs_up_witness :
    ai_conversation (.found janeSkeleton) scamEnv "wire me the money now" = .ok
      { response :=
          { aiResponse :=
              { speaker := "AI", message := scam_goodbye_message
                startedAt := "2026-01-01T00:00:05Z" }
            shouldHangup := some true }
        skeleton := update_intent_classification janeSkeleton "scam"
        setIntentPre := some (some "opportunity")
        calllogAttempted := false
        calllogResult := none
        invokedCollector := none
        retryPassed := none } :=
  scam_turn_hangs_up janeSkeleton scamEnv "wire me the money now" (by rfl)

/-- Claim C2: when the intent-classification capability raises, the turn
is not aborted: the handler substitutes intent "other" with confidence 0
and a reasoning string noting the failure, and still returns a reply
rather than an error. -/
theorem classification_failure_fails_open (cs : CallSkeleton) (env : TurnEnv)
    (m e : String) (h : env.classify = .error e) :
    resolve_intent env.classify =
      { intent := "other", confidence := 0, reasoning := "Classification failed: " ++ e } ∧
    (turnOk (ai_conversation (.found cs) env m)).isSome = true := by
  refine ⟨?_, turn_found_isOk cs env m⟩
  rw [h]
  rfl

/-- Witness for C2: a concrete turn whose classifier call times out. -/
theorem classification_failure_fails_open_witness :
    resolve_intent classifierDownEnv.classify =
      { intent := "other", confidence := 0
        reasoning := "Classification failed: classifier timeout" } ∧
    (turnOk (ai_conversation (.found emptySkeleton) classifierDownEnv "hello")).isSome = true :=
  classification_failure_fails_open emptySkeleton classifierDownEnv "hello"
    "classifier timeout" (by rfl)

/-- Claim C4: get_collection_state derives the step purely from which
collected fields are non-empty, in the fixed order name, background,
additional info: no collected fields gives step "name"; name and
background collected with additional info missing gives
"additional_info"; all three collected gives "completed"; and two records
agreeing on which fields are present agree on the step. -/
theorem get_collection_state_step_cases (cs cs' : CallSkeleton) :
    ((pyStr cs.user.userInfo.name = none ∧ pyStr cs.user.userInfo.address = none ∧
        pyStr cs.user.userInfo.phone = none) →
      (get_collection_state cs).current_step = "name") ∧
    (((pyStr cs.user.userInfo.name).isSome = true ∧
        (pyStr cs.user.userInfo.address).isSome = true ∧
        pyStr cs.user.userInfo.phone = none) →
      (get_collection_state cs).current_step = "additional_info") ∧
    (((pyStr cs.user.userInfo.name).isSome = true ∧
        (pyStr cs.user.userInfo.address).isSome = true ∧
        (pyStr cs.user.userInfo.phone).isSome = true) →
      (get_collection_state cs).current_step = "completed") ∧
    (((pyStr cs.user.userInfo.name).isSome = (pyStr cs'.user.userInfo.name).isSome ∧
        (pyStr cs.user.userInfo.address).isSome = (pyStr cs'.user.userInfo.address).isSome ∧
        (pyStr cs.user.userInfo.phone).isSome = (pyStr cs'.user.userInfo.phone).isSome) →
      (get_collection_state cs).current_step = (get_collection_state cs').current_step) := by
  refine ⟨?_, ?_, ?_, ?_⟩
  · rintro ⟨h1, h2, h3⟩
    unfold get_collection_state
    simp [h1, h2, h3]
  · rintro ⟨h1, h2, h3⟩
    exact (current_step_eq_additional cs).mpr ⟨h1, h2, by rw [h3]; rfl⟩
  · rintro ⟨h1, h2, h3⟩
    exact (current_step_eq_completed cs).mpr ⟨h1, h2, h3⟩
  · rintro ⟨h1, h2, h3⟩
    simp only [get_collection_state]
    rw [h1, h2, h3]

/-- Witness for C4: the three step derivations at concrete records. -/
theorem get_collection_state_step_cases_witness :
    (get_collection_state emptySkeleton).current_step = "name" ∧
    (get_collection_state janeSkeleton).current_step = "additional_info" ∧
    (get_collection_state doneSkeleton).current_step = "completed" :=
  ⟨(get_collection_state_step_cases emptySkeleton emptySkeleton).1 ⟨rfl, rfl, rfl⟩,
   (get_collection_state_step_cases janeSkeleton janeSkeleton).2.1 ⟨rfl, rfl, rfl⟩,
   (get_collection_state_step_cases doneSkeleton doneSkeleton).2.2.1 ⟨rfl, rfl, rfl⟩⟩

/-- Claim C8: each step collector, when its extraction capability raises,
returns that step's fixed fallback question as the response, a null
extracted value, and step_complete = false, rather than propagating the
exception. -/
theorem collectors_fail_soft (e1 e2 e3 : String)
    (retry_count max_retries_per_step : Nat) :
    collect_name (.error e1) retry_count max_retries_per_step =
      { response := name_fallback_question
        extracted := false
        value := none
        should_retry := decide (retry_count < max_retries_per_step)
        step_complete := false } ∧
    collect_background (.error e2) retry_count max_retries_per_step =
      { response := background_fallback_question
        extracted := false
        value := none
        should_retry := decide (retry_count < max_retries_per_step)
        step_complete := false } ∧
    collect_additional_info (.error e3) retry_count max_retries_per_step =
      { response := additional_fallback_question
        extracted := false
        value := none
        should_retry := decide (retry_count < max_retries_per_step)
        step_complete := false } :=
  ⟨rfl, rfl, rfl⟩

/-- Claim C3: a turn returns shouldHangup = true only when the resolved
intent is "scam" or all three collection fields are or become collected in
that turn (so collector failures, classification failures and
record-creation failures never end the call, and the call is never hung
up in the middle of a step). -/
theorem hangup_only_scam_or_completed (cs : CallSkeleton) (env : TurnEnv) (m : String)
    (o : TurnOutput) (hok : ai_conversation (.found cs) env m = .ok o)
    (hhang : o.response.shouldHangup = some true) :
    (resolve_intent env.classify).intent = "scam" ∨
      ((pyStr o.skeleton.user.userInfo.name).isSome = true ∧
       (pyStr o.skeleton.user.userInfo.address).isSome = true ∧
       (pyStr o.skeleton.user.userInfo.phone).isSome = true) := by
  by_cases hscam : (resolve_intent env.classify).intent = "scam"
  · exact Or.inl hscam
  right
  rcases current_step_mem cs with h | h | h | h
  · obtain ⟨o', ho, hh, -⟩ := turn_eq_name cs env m hscam h
    rw [hok] at ho
    injection ho with he
    rw [he, hh] at hhang
    exact Option.noConfusion hhang
  · obtain ⟨o', ho, hh, -⟩ := turn_eq_background cs env m hscam h
    rw [hok] at ho
    injection ho with he
    rw [he, hh] at hhang
    exact Option.noConfusion hhang
  · cases hv : (collect_additional_info env.additionalOutcome
        (get_collection_state cs).additional_retry_count env.max_retries_per_step).value with
    | none =>
      have ho := turn_eq_additional_incomplete cs env m hscam h (by rw [hv])
      rw [hok] at ho
      injection ho with he
      rw [he] at hhang
      exact Option.noConfusion hhang
    | some v =>
      by_cases hb : ((collect_additional_info env.additionalOutcome
          (get_collection_state cs).additional_retry_count
          env.max_retries_per_step).step_complete && v != "") = true
      · obtain ⟨hsc, hne'⟩ := Bool.and_eq_true_iff.mp hb
        have hne : ¬v = "" := by simpa using hne'
        have ho := turn_eq_additional_complete cs env m v hscam h hsc hv hne
        rw [hok] at ho
        injection ho with he
        obtain ⟨hn1, ha1, -⟩ := (current_step_eq_additional cs).mp h
        obtain ⟨hp, hn, ha⟩ := update_user_info_field_phone
          (if (get_collection_state cs).calllog_created then cs
            else update_intent_classification cs (resolve_intent env.classify).intent) v
        refine ⟨?_, ?_, ?_⟩
        · rw [he]
          show (pyStr (update_user_info_field _ "phone" v).user.userInfo.name).isSome = true
          rw [hn, skeleton1_user]
          exact hn1
        · rw [he]
          show (pyStr (update_user_info_field _ "phone" v).user.userInfo.address).isSome = true
          rw [ha, skeleton1_user]
          exact ha1
        · rw [he]
          show (pyStr (update_user_info_field _ "phone" v).user.userInfo.phone).isSome = true
          rw [hp]
          exact pyStr_some_isSome hne
      · have ho := turn_eq_additional_incomplete cs env m hscam h (by rw [hv]; simpa using hb)
        rw [hok] at ho
        injection ho with he
        rw [he] at hhang
        exact Option.noConfusion hhang
  · have ho := turn_eq_completed cs env m hscam h
    rw [hok] at ho
    injection ho with he
    obtain ⟨hn1, ha1, hp1⟩ := (current_step_eq_completed cs).mp h
    refine ⟨?_, ?_, ?_⟩
    · rw [he]
      show (pyStr (if (get_collection_state cs).calllog_created then cs
        else update_intent_classification cs
          (resolve_intent env.classify).intent).user.userInfo.name).isSome = true
      rw [skeleton1_user]
      exact hn1
    · rw [he]
      show (pyStr (if (get_collection_state cs).calllog_created then cs
        else update_intent_classification cs
          (resolve_intent env.classify).intent).user.userInfo.address).isSome = true
      rw [skeleton1_user]
      exact ha1
    · rw [he]
      show (pyStr (if (get_collection_state cs).calllog_created then cs
        else update_intent_classification cs
          (resolve_intent env.classify).intent).user.userInfo.phone).isSome = true
      rw [skeleton1_user]
      exact hp1

/-- Witness for C3: a concrete scam turn. -/
theorem hangup_only_scam_or_completed_witness :
    (resolve_intent scamEnv.classify).intent = "scam" ∨
      ((pyStr scamEmptyOut.skeleton.user.userInfo.name).isSome = true ∧
       (pyStr scamEmptyOut.skeleton.user.userInfo.address).isSome = true ∧
       (pyStr scamEmptyOut.skeleton.user.userInfo.phone).isSome = true) :=
  hangup_only_scam_or_completed emptySkeleton scamEnv "give me the gift cards"
    scamEmptyOut (by rfl) (by rfl)

/-- Claim C9: the derived CollectionState carries retry counts 0 for all
three steps on every turn, and the retry_count actually passed to
whichever collector runs is 0, so a positive configured per-step retry
ceiling is never reached across turns. -/
theorem retry_counts_recomputed_zero (cs : CallSkeleton) (env : TurnEnv) (m : String)
    (o : TurnOutput) (r : Nat)
    (hok : ai_conversation (.found cs) env m = .ok o)
    (hr : o.retryPassed = some r)
    (hpos : 0 < env.max_retries_per_step) :
    (get_collection_state cs).name_retry_count = 0 ∧
    (get_collection_state cs).background_retry_count = 0 ∧
    (get_collection_state cs).additional_retry_count = 0 ∧
    r = 0 ∧ r < env.max_retries_per_step := by
  have hr0 : r = 0 := by
    rcases (turn_found_shape cs env m o hok).2.2.1 with hnone | hzero
    · rw [hnone] at hr
      exact Option.noConfusion hr
    · rw [hzero] at hr
      exact (Option.some.injEq _ _ ▸ hr).symm
  exact ⟨rfl, rfl, rfl, hr0, hr0 ▸ hpos⟩

/-- Witness for C9: the first turn on a fresh call passes retry count 0 to
the name collector, below the configured ceiling of 3. -/
theorem retry_counts_recomputed_zero_witness :
    (get_collection_state emptySkeleton).name_retry_count = 0 ∧
    (get_collection_state emptySkeleton).background_retry_count = 0 ∧
    (get_collection_state emptySkeleton).additional_retry_count = 0 ∧
    (0 : Nat) = 0 ∧ (0 : Nat) < 3 :=
  retry_counts_recomputed_zero emptySkeleton baseEnv "hi" firstTurnOut 0
    (by rfl) (by rfl) (by decide)

/-- Claim C10: every successful turn response carries an aiResponse whose
speaker is "AI", and the shouldHangup key is present only with value true
(on all other turns the key is absent, never present as false). -/
theorem response_hangup_key_only_true (cs : CallSkeleton) (env : TurnEnv) (m : String)
    (o : TurnOutput) (b : Bool)
    (hok : ai_conversation (.found cs) env m = .ok o) :
    o.response.aiResponse.speaker = "AI" ∧
    (o.response.shouldHangup = some b → b = true) := by
  obtain ⟨hsp, hh, -⟩ := turn_found_shape cs env m o hok
  refine ⟨hsp, fun hb => ?_⟩
  rcases hh with hnone | htrue
  · rw [hnone] at hb
    exact Option.noConfusion hb
  · rw [htrue] at hb
    exact (Option.some.injEq _ _ ▸ hb).symm

/-- Witness for C10: a concrete non-hangup turn (the key is absent) whose
speaker is "AI". -/
theorem response_hangup_key_only_true_witness :
    firstTurnOut.response.aiResponse.speaker = "AI" ∧
    firstTurnOut.response.shouldHangup = none :=
  ⟨(response_hangup_key_only_true emptySkeleton baseEnv "hi" firstTurnOut true
      (by rfl)).1,
   rfl⟩

/-- Counterexample to C5 as stated: on a non-scam additional-info turn the
collector reports success (step_complete = true, because the capability
flagged the field extracted) while carrying a null value; the field is
not persisted, no closing message is produced, and the shouldHangup key
is absent, so "collector succeeds implies persist and hang up" fails. -/
theorem additional_flagged_null_no_hangup :
    (collect_additional_info flaggedNullAdditionalEnv.additionalOutcome 0 3).step_complete
      = true ∧
    ai_conversation (.found janeSkeleton) flaggedNullAdditionalEnv
        "you can reach me anytime" = .ok
      { response :=
          { aiResponse :=
              { speaker := "AI", message := "Noted.", startedAt := "2026-01-01T00:00:05Z" }
            shouldHangup := none }
        skeleton := janeSkeleton
        setIntentPre := none
        calllogAttempted := false
        calllogResult := none
        invokedCollector := some "additional_info"
        retryPassed := some 0 } :=
  ⟨rfl, rfl⟩

/-- Amended C5: on a non-scam turn in the additional-info step whose
collector reports success together with a non-null, non-empty extracted
value, the field is persisted and the closing message plus
shouldHangup = true are produced in that same turn; and a non-scam turn
that starts with the step already completed invokes no collector and
emits the closing message with shouldHangup = true immediately. -/
theorem completion_closes_call (cs : CallSkeleton) (env : TurnEnv) (m v : String)
    (o : TurnOutput) (hok : ai_conversation (.found cs) env m = .ok o)
    (hns : ¬(resolve_intent env.classify).intent = "scam") :
    (((get_collection_state cs).current_step = "additional_info" ∧
        (collect_additional_info env.additionalOutcome
          (get_collection_state cs).additional_retry_count
          env.max_retries_per_step).step_complete = true ∧
        (collect_additional_info env.additionalOutcome
          (get_collection_state cs).additional_retry_count
          env.max_retries_per_step).value = some v ∧ ¬v = "") →
      o.skeleton.user.userInfo.phone = some v ∧
      o.response.shouldHangup = some true ∧
      o.response.aiResponse.message =
        generate_closing_message (get_collection_state cs).collected_name
          (some (resolve_intent env.classify).intent) ∧
      o.invokedCollector = some "additional_info") ∧
    ((get_collection_state cs).current_step = "completed" →
      o.invokedCollector = none ∧
      o.response.shouldHangup = some true ∧
      o.response.aiResponse.message =
        generate_closing_message (get_collection_state cs).collected_name
          (some (resolve_intent env.classify).intent)) := by
  constructor
  · rintro ⟨hstep, hsc, hv, hne⟩
    have ho := turn_eq_additional_complete cs env m v hns hstep hsc hv hne
    rw [hok] at ho
    injection ho with he
    refine ⟨?_, by rw [he], by rw [he], by rw [he]⟩
    rw [he]
    exact (update_user_info_field_phone _ v).1
  · intro hstep
    have ho := turn_eq_completed cs env m hns hstep
    rw [hok] at ho
    injection ho with he
    exact ⟨by rw [he], by rw [he], by rw [he]⟩

/-- Witness for amended C5: the closing turn on a concrete call whose
additional-info extraction succeeds. -/
theorem completion_closes_call_witness :
    janeClosedOut.skeleton.user.userInfo.phone = some "jane@acme.example" ∧
    janeClosedOut.response.shouldHangup = some true ∧
    janeClosedOut.invokedCollector = some "additional_info" :=
  ⟨((completion_closes_call janeSkeleton goodAdditionalEnv
      "you can reach me at jane@acme.example" "jane@acme.example" janeClosedOut
      (by rfl) (by decide)).1 ⟨by rfl, by rfl, by rfl, by decide⟩).1,
   ((completion_closes_call janeSkeleton goodAdditionalEnv
      "you can reach me at jane@acme.example" "jane@acme.example" janeClosedOut
      (by rfl) (by decide)).1 ⟨by rfl, by rfl, by rfl, by decide⟩).2.1,
   ((completion_closes_call janeSkeleton goodAdditionalEnv
      "you can reach me at jane@acme.example" "jane@acme.example" janeClosedOut
      (by rfl) (by decide)).1 ⟨by rfl, by rfl, by rfl, by decide⟩).2.2.2⟩

/-- Counterexample to C6 as stated: on a fresh call whose calllog POST
fails, the creation is attempted and fails, yet the record's flag
(intentClassified, used as the calllog-created gate) is already true at
the start of the next turn, because the intent update preceding the
creation attempt set it; consequently creation is NOT attempted again on
the next turn, contrary to the claim. -/
theorem failed_calllog_not_retried :
    ai_conversation (.found emptySkeleton) failedCalllogEnv "hello" = .ok failedCalllogOut ∧
    failedCalllogOut.calllogAttempted = true ∧
    failedCalllogOut.calllogResult = some false ∧
    failedCalllogOut.skeleton.intentClassified = true ∧
    (turnOk (ai_conversation (.found failedCalllogOut.skeleton) failedCalllogEnv
        "hello again")).map TurnOutput.calllogAttempted = some false :=
  ⟨rfl, rfl, rfl, rfl, rfl⟩

/-- Amended C6: createRecord is never attempted on a turn whose record
already has the flag true, and a creation failure does not fail the turn;
however, the intent update preceding the creation attempt sets the flag,
so after any successful non-scam turn the flag is true and creation is
never attempted on the following turn, even if this turn's creation
failed. -/
theorem calllog_gate_and_no_retry (cs : CallSkeleton) (env : TurnEnv) (m : String)
    (o : TurnOutput) (hok : ai_conversation (.found cs) env m = .ok o) :
    (cs.intentClassified = true → o.calllogAttempted = false) ∧
    (o.calllogAttempted = true → cs.intentClassified = false) ∧
    o.skeleton.intentClassified = true ∧
    (∀ env2 m2 o2, ai_conversation (.found o.skeleton) env2 m2 = .ok o2 →
      o2.calllogAttempted = false) := by
  have hgate : ∀ (s : CallSkeleton) (e : TurnEnv) (mm : String) (oo : TurnOutput),
      ai_conversation (.found s) e mm = .ok oo → s.intentClassified = true →
      oo.calllogAttempted = false := by
    intro s e mm oo hk hs
    obtain ⟨-, -, -, -, -, -, hif⟩ := turn_found_shape s e mm oo hk
    cases ha : oo.calllogAttempted with
    | false => rfl
    | true =>
      obtain ⟨hfl, -⟩ := hif.mp ha
      rw [hs] at hfl
      exact Bool.noConfusion hfl
  obtain ⟨-, -, -, hflag, -, -, hiff⟩ := turn_found_shape cs env m o hok
  exact ⟨hgate cs env m o hok, fun ha => (hiff.mp ha).1, hflag,
    fun env2 m2 o2 hk2 => hgate _ env2 m2 o2 hk2 hflag⟩

/-- Witness for amended C6: after a concrete first turn the flag is set
and the second turn does not attempt creation. -/
theorem calllog_gate_and_no_retry_witness :
    firstTurnOut.skeleton.intentClassified = true ∧
    secondTurnOut.calllogAttempted = false :=
  ⟨(calllog_gate_and_no_retry emptySkeleton baseEnv "hi" firstTurnOut (by rfl)).2.2.1,
   (calllog_gate_and_no_retry emptySkeleton baseEnv "hi" firstTurnOut (by rfl)).2.2.2
     baseEnv "hi again" secondTurnOut (by rfl)⟩

/-- Counterexample to C7 as stated: after a first turn classified "other"
(which persists intent "other"), a second turn classified "scam" invokes
the intent update on a record whose intent is already set, so the stored
classification is not written at most once per call. -/
theorem scam_reclassifies_set_intent :
    ai_conversation (.found emptySkeleton) baseEnv "hi" = .ok firstTurnOut ∧
    firstTurnOut.skeleton.intent = some "other" ∧
    (turnOk (ai_conversation (.found firstTurnOut.skeleton) scamEnv
        "buy me gift cards")).map TurnOutput.setIntentPre = some (some (some "other")) :=
  ⟨rfl, rfl, rfl⟩

/-- Amended C7: the intent update is invoked only on turns whose record
has the classified flag unset or whose resolved intent is "scam"; on the
non-scam path the intent is therefore set at most once, but a scam turn
always re-persists the classification even when the intent is already
set. -/
theorem set_intent_gate (cs : CallSkeleton) (env : TurnEnv) (m : String)
    (o : TurnOutput) (hok : ai_conversation (.found cs) env m = .ok o) :
    (o.setIntentPre = some cs.intent ∨ o.setIntentPre = none) ∧
    (o.setIntentPre ≠ none →
      (resolve_intent env.classify).intent = "scam" ∨ cs.intentClassified = false) := by
  obtain ⟨-, -, -, -, p1, p2, -⟩ := turn_found_shape cs env m o hok
  exact ⟨p1, p2⟩

/-- Witness for amended C7: the first turn on a fresh call records the
pre-update intent none. -/
theorem set_intent_gate_witness :
    firstTurnOut.setIntentPre = some none ∨ firstTurnOut.setIntentPre = none :=
  (set_intent_gate emptySkeleton baseEnv "hi" firstTurnOut (by rfl)).1

end DispatchAI
